import Mathlib

/-!
Shallow embedding of the MCP test server (`src/unnamed/part_000`): the
users Store backed by the `users` table, the tool registry
(`list_users`, `get_user`, `create_user`) and the `/mcp` JSON-RPC
dispatcher (`app.post("/mcp")`).

JavaScript runtime values that can appear in a parsed request body are
modelled by `JsonVal`, with `vUndef` standing for JavaScript
`undefined` (an absent object field).  Numbers are modelled as `Int`
(every value the claims exercise is integral).  The PostgreSQL layer
is modelled by a `Store` state: `SERIAL` id assignment is the
`nextId` counter, `CURRENT_TIMESTAMP` is the abstract `now` field, and
a store whose `failure` field is `some msg` raises `msg` from every
query, modelling a failing database.  The `tools[name]` property read
models the `Object.prototype` chain of the object literal: an
inherited key such as `toString` reads truthy, so the source throws on
`tool.handler` instead of taking the unknown-tool branch.
Engine-specific strings (the text of a `TypeError` on a non-string
`method`, of a PostgreSQL cast error) are approximated; no theorem
below depends on them.
-/

/-- A JavaScript/JSON value as it appears in a parsed request body.
`vUndef` is JavaScript `undefined` (also the result of reading an
absent object field). -/
inductive JsonVal where
  | vUndef : JsonVal
  | vNull : JsonVal
  | vBool : Bool → JsonVal
  | vNum : Int → JsonVal
  | vStr : String → JsonVal
  | vArr : List JsonVal → JsonVal
  | vObj : List (String × JsonVal) → JsonVal

namespace JsonVal

/-- JavaScript truthiness, as used by `params || {}` and `args || {}`. -/
def jsTruthy : JsonVal → Bool
  | vUndef => false
  | vNull => false
  | vBool b => b
  | vNum n => n != 0
  | vStr s => s != ""
  | vArr _ => true
  | vObj _ => true

/-- `a || b` in JavaScript: `b` when `a` is falsy, else `a`. -/
def jsOr (a b : JsonVal) : JsonVal :=
  if a.jsTruthy then a else b

/-- Reading property `k` of a value, as done by destructuring
(`const { name, args } = params`): an absent field, or any property of
a non-object primitive, reads as `undefined`.  The keys the dispatcher
and handlers destructure (`name`, `args`, `id`, `email`, `role`) are
not `Object.prototype` properties, so own-property lookup is faithful
here; the prototype chain matters only for `tools[name]`, where it is
modelled (see `lookupTool`). -/
def getField (v : JsonVal) (k : String) : JsonVal :=
  match v with
  | vObj fs => ((fs.find? (fun p => p.1 == k)).map (fun p => p.2)).getD vUndef
  | _ => vUndef

end JsonVal

/-- Stringification of an element inside `Array.prototype.join(",")`:
`null` and `undefined` render as the empty string.  A nested array is
approximated by the empty string (JavaScript would recursively join
it); no value the claims exercise nests an array inside an array. -/
def jsElemText : JsonVal → String
  | .vUndef => ""
  | .vNull => ""
  | .vBool true => "true"
  | .vBool false => "false"
  | .vNum n => toString n
  | .vStr s => s
  | .vArr _ => ""
  | .vObj _ => "[object Object]"

/-- JavaScript string conversion as performed by a template literal
(`` `Unknown tool: ${name}` ``).  Arrays stringify as
`join(",")` over `jsElemText`. -/
def jsToString : JsonVal → String
  | .vUndef => "undefined"
  | .vNull => "null"
  | .vBool true => "true"
  | .vBool false => "false"
  | .vNum n => toString n
  | .vStr s => s
  | .vArr xs => String.intercalate "," (xs.map jsElemText)
  | .vObj _ => "[object Object]"

/-- A row of the `users` table
(`id SERIAL PRIMARY KEY, name VARCHAR, email VARCHAR, role VARCHAR,
created_at TIMESTAMP DEFAULT CURRENT_TIMESTAMP`).  The three VARCHAR
columns are nullable, hence `Option String`; `created_at` is an
abstract timestamp. -/
structure User where
  id : Nat
  name : Option String
  email : Option String
  role : Option String
  created_at : Nat
deriving DecidableEq, Repr

/-- The PostgreSQL `users` table together with its `SERIAL` counter
(`nextId`), the clock read by `CURRENT_TIMESTAMP` (`now`), and a
failure mode: when `failure = some msg`, every query raises `msg`
(a failing database connection). -/
structure Store where
  users : List User
  nextId : Nat
  now : Nat
  failure : Option String
deriving DecidableEq, Repr

/-- Decimal digit accumulator for `pgParseInt`. -/
def natOfDigits : List Char → Nat → Option Nat
  | [], acc => some acc
  | c :: cs, acc =>
    if c.isDigit then natOfDigits cs (acc * 10 + (c.toNat - 48)) else none

/-- PostgreSQL's text-to-`integer` cast (`int4in`): an optional sign
followed by at least one decimal digit.  (Surrounding whitespace
trimming is not modelled; no value the claims exercise carries it.) -/
def pgParseInt (s : String) : Option Int :=
  match s.data with
  | [] => none
  | '-' :: cs =>
    if cs.isEmpty then none
    else (natOfDigits cs 0).map (fun n => -(n : Int))
  | '+' :: cs =>
    if cs.isEmpty then none
    else (natOfDigits cs 0).map (fun n => (n : Int))
  | cs => (natOfDigits cs 0).map (fun n => (n : Int))

/-- node-postgres conversion of a JavaScript value bound to the `$1`
parameter of `WHERE id = $1` (an `integer` column): numbers are passed
through, numeric strings are cast by PostgreSQL, `null`/`undefined`
are sent as SQL `NULL`, anything else fails the integer cast.  (The
exact PostgreSQL error text is approximated; no proof depends on it.) -/
def pgIntParam : JsonVal → Except String (Option Int)
  | .vNum n => .ok (some n)
  | .vStr s =>
    match pgParseInt s with
    | some n => .ok (some n)
    | none => .error ("invalid input syntax for type integer: " ++ s)
  | .vNull => .ok none
  | .vUndef => .ok none
  | v => .error ("invalid input syntax for type integer: " ++ jsToString v)

/-- Scalar rendering inside `JSON.stringify` (string escaping and
nested structured values approximated; no claim exercises structured
parameter values). -/
def jsonScalarText : JsonVal → String
  | .vNull => "null"
  | .vBool true => "true"
  | .vBool false => "false"
  | .vNum n => toString n
  | .vStr s => "\"" ++ s ++ "\""
  | _ => "null"

/-- One field of `JSON.stringify` of an object: fields holding
`undefined` are dropped. -/
def jsonFieldText : String × JsonVal → Option String
  | (_, .vUndef) => none
  | (k, v) => some ("\"" ++ k ++ "\":" ++ jsonScalarText v)

/-- `JSON.stringify` of a plain object, rendered one level deep. -/
def jsonObjText (fs : List (String × JsonVal)) : String :=
  "\x7b" ++ String.intercalate "," (fs.filterMap jsonFieldText) ++ "\x7d"

/-- node-postgres rendering of one element of a PostgreSQL array
literal: `null`/`undefined` become `NULL`, strings are quoted (nested
structured elements approximated). -/
def pgArrayElem : JsonVal → String
  | .vUndef => "NULL"
  | .vNull => "NULL"
  | .vBool true => "true"
  | .vBool false => "false"
  | .vNum n => toString n
  | .vStr s => "\"" ++ s ++ "\""
  | .vArr _ => "NULL"
  | .vObj fs => "\"" ++ jsonObjText fs ++ "\""

/-- node-postgres conversion of a JavaScript value bound to a VARCHAR
parameter of the INSERT: strings pass through, numbers and booleans
are stringified, `null`/`undefined` become SQL `NULL`, a plain object
is sent as its JSON text and an array as a PostgreSQL array literal
(both rendered one level deep; string escaping is approximated, and no
claim exercises structured parameter values).  A VARCHAR column
accepts any of these texts, so the conversion never fails. -/
def pgTextParam : JsonVal → Except String (Option String)
  | .vStr s => .ok (some s)
  | .vNum n => .ok (some (toString n))
  | .vBool true => .ok (some "true")
  | .vBool false => .ok (some "false")
  | .vNull => .ok none
  | .vUndef => .ok none
  | .vObj fs => .ok (some (jsonObjText fs))
  | .vArr xs =>
    .ok (some ("\x7b" ++ String.intercalate "," (xs.map pgArrayElem) ++ "\x7d"))

namespace Store

/-- `SELECT * FROM users` (the `list_users` handler query). -/
def selectAll (s : Store) : Except String (List User) :=
  match s.failure with
  | some msg => .error msg
  | none => .ok s.users

/-- `SELECT * FROM users WHERE id = $1` with the JavaScript value `v`
bound to `$1` (the `get_user` handler query).  `WHERE id = NULL`
matches no rows. -/
def selectById (s : Store) (v : JsonVal) : Except String (List User) :=
  match s.failure with
  | some msg => .error msg
  | none =>
    match pgIntParam v with
    | .error msg => .error msg
    | .ok none => .ok []
    | .ok (some n) => .ok (s.users.filter (fun u => (u.id : Int) == n))

/-- `INSERT INTO users (name, email, role) VALUES ($1, $2, $3)
RETURNING *` (the `create_user` handler query): the new row takes the
next `SERIAL` id and the current timestamp and is appended to the
table. -/
def insertUser (s : Store) (nameV emailV roleV : JsonVal) :
    Except String (User × Store) :=
  match s.failure with
  | some msg => .error msg
  | none =>
    match pgTextParam nameV, pgTextParam emailV, pgTextParam roleV with
    | .ok n, .ok e, .ok r =>
      let u : User := ⟨s.nextId, n, e, r, s.now⟩
      .ok (u, { s with users := s.users ++ [u], nextId := s.nextId + 1 })
    | .error msg, _, _ => .error msg
    | _, .error msg, _ => .error msg
    | _, _, .error msg => .error msg

end Store

/-- The row object returned by `SELECT *` / `RETURNING *`, as
serialized into the JSON response. -/
def userToJson (u : User) : JsonVal :=
  .vObj [("id", .vNum u.id),
         ("name", (u.name.map JsonVal.vStr).getD .vNull),
         ("email", (u.email.map JsonVal.vStr).getD .vNull),
         ("role", (u.role.map JsonVal.vStr).getD .vNull),
         ("created_at", .vNum u.created_at)]

/-- The three registered tools (keys of the `tools` object literal). -/
inductive ToolName where
  | list_users : ToolName
  | get_user : ToolName
  | create_user : ToolName
deriving DecidableEq, Repr

/-- The registry key of a tool. -/
def ToolName.key : ToolName → String
  | .list_users => "list_users"
  | .get_user => "get_user"
  | .create_user => "create_user"

/-- The registry description of a tool (`tools[name].description`). -/
def ToolName.descr : ToolName → String
  | .list_users => "List all users"
  | .get_user => "Get a user by ID"
  | .create_user => "Create a new user"

/-- The property keys the `tools` object literal inherits from
`Object.prototype`.  Reading any of them on `tools` yields a truthy
value (a function, or the prototype object for `__proto__`), so the
`!tool` guard of the source does not fire for these names. -/
def protoProps : List String :=
  ["constructor", "hasOwnProperty", "isPrototypeOf", "propertyIsEnumerable",
   "toLocaleString", "toString", "valueOf", "__proto__",
   "__defineGetter__", "__defineSetter__", "__lookupGetter__",
   "__lookupSetter__"]

/-- Outcome of the property read `tools[name]`: an own key holding a
tool definition, a truthy value inherited from `Object.prototype`
(which has no `handler` field), or `undefined`. -/
inductive ToolLookup where
  | found : ToolName → ToolLookup
  | inherited : ToolLookup
  | absent : ToolLookup
deriving DecidableEq, Repr

/-- `tools[name]`: lookup by the property key the bracket access
converts `name` to — own keys of the object literal first, then the
`Object.prototype` chain. -/
def lookupTool (k : String) : ToolLookup :=
  if k = "list_users" then .found .list_users
  else if k = "get_user" then .found .get_user
  else if k = "create_user" then .found .create_user
  else if protoProps.contains k then .inherited
  else .absent

/-- `await tool.handler(args)`: the body of the matched tool's handler.
Each handler destructures its named arguments from `args` and runs its
single query; a query failure propagates as a raised error. -/
def runTool (t : ToolName) (args : JsonVal) (s : Store) :
    Except String (JsonVal × Store) :=
  match t with
  | .list_users =>
    match s.selectAll with
    | .error msg => .error msg
    | .ok rows => .ok (.vArr (rows.map userToJson), s)
  | .get_user =>
    match s.selectById (args.getField "id") with
    | .error msg => .error msg
    | .ok rows => .ok (((rows.head?).map userToJson).getD .vNull, s)
  | .create_user =>
    match s.insertUser (args.getField "name") (args.getField "email")
        (args.getField "role") with
    | .error msg => .error msg
    | .ok (u, s1) => .ok (userToJson u, s1)

/-- The request body destructured by the dispatcher:
`const { id, method, params } = req.body` (absent fields read as
`undefined`). -/
structure McpRequest where
  id : JsonVal
  method : JsonVal
  params : JsonVal

/-- The `code`/`message` pair of a JSON-RPC error. -/
structure ErrObj where
  code : Int
  message : String
deriving DecidableEq, Repr

/-- The response object passed to `res.json`.  The JavaScript object
either carries a `result` field or an `error` field; both are modelled
as options so that their exclusivity is a theorem, not a typing
artifact. -/
structure McpResponse where
  jsonrpc : String
  id : JsonVal
  result : Option JsonVal
  error : Option ErrObj

/-- `res.json({ jsonrpc: "2.0", id, result })`. -/
def okResponse (idv : JsonVal) (r : JsonVal) : McpResponse :=
  { jsonrpc := "2.0", id := idv, result := some r, error := none }

/-- `res.json({ jsonrpc: "2.0", id, error: { code, message } })`. -/
def errResponse (idv : JsonVal) (code : Int) (msg : String) : McpResponse :=
  { jsonrpc := "2.0", id := idv, result := none, error := some ⟨code, msg⟩ }

/-- The literal `"mcp/"` stripped by
`method.replace(/^mcp\//, "")`. -/
def mcpMethodHead : String := "mcp/"

/-- `method.replace(/^mcp\//, "")`: the regex is anchored at the start,
so at most one leading `"mcp/"` is removed. -/
def normalizeMethod (m : String) : String :=
  if mcpMethodHead.data.isPrefixOf m.data then ⟨m.data.drop 4⟩ else m

/-- The `result` object of the `initialize` / `get_tools` branch. -/
def initResult : JsonVal :=
  .vObj [("protocolVersion", .vStr "1.0"),
         ("capabilities",
          .vObj [("supportsStreaming", .vBool false),
                 ("supportsToolInvocation", .vBool true)]),
         ("serverInfo",
          .vObj [("name", .vStr "Test MCP Server"),
                 ("version", .vStr "1.0.0")]),
         ("tools",
          .vArr ([ToolName.list_users, ToolName.get_user,
                  ToolName.create_user].map (fun t =>
            .vObj [("name", .vStr t.key),
                   ("description", .vStr t.descr)])))]

/-- The `TypeError` raised by `method.replace(...)` when `method` is
not a string (engine-specific text, approximated; no proof depends on
it). -/
def methodTypeErrMsg (v : JsonVal) : String :=
  match v with
  | .vUndef => "Cannot read properties of undefined (reading 'replace')"
  | .vNull => "Cannot read properties of null (reading 'replace')"
  | _ => "method.replace is not a function"

/-- Mapping of the awaited handler outcome into a response:
`return res.json({ jsonrpc: "2.0", id, result })` on success, the
`catch` block's `-32000` envelope when the handler threw (a store
failure reaches the dispatcher boundary this way). -/
def invokeOutcome (idv : JsonVal) (s : Store)
    (out : Except String (JsonVal × Store)) : McpResponse × Store :=
  match out with
  | .ok rs => (okResponse idv rs.1, rs.2)
  | .error msg => (errResponse idv (-32000) msg, s)

/-- The `invoke_tool` block (lines 159-171 of the source): look the
tool up by the stringified `name`; when the read is `undefined` the
`!tool` guard answers `-32601` with the offending name; when it finds
a truthy value inherited from `Object.prototype`, the guard is
skipped, `tool.handler` is `undefined`, the call throws
`TypeError: tool.handler is not a function` (the V8/Node message),
and the catch answers `-32000`; otherwise run the handler on
`args || {}`. -/
def invokeBranch (idv : JsonVal) (s : Store) (nameV argsV : JsonVal) :
    McpResponse × Store :=
  match lookupTool (jsToString nameV) with
  | .absent =>
    (errResponse idv (-32601) ("Unknown tool: " ++ jsToString nameV), s)
  | .inherited =>
    (errResponse idv (-32000) "tool.handler is not a function", s)
  | .found t => invokeOutcome idv s (runTool t (argsV.jsOr (.vObj [])) s)

/-- The `/mcp` dispatcher, `app.post("/mcp")` of
`src/unnamed/part_000` lines 125-189: normalize the method, serve the
discovery branch, the `invoke_tool` branch (unknown-tool check, then
handler invocation), the unknown-method fallback, and map anything
thrown — a non-string `method`, or a handler/store failure — to a
`-32000` error envelope in the `catch`.  Returns the response sent by
`res.json` together with the resulting store state. -/
def mcpDispatch (s : Store) (req : McpRequest) : McpResponse × Store :=
  match req.method with
  | .vStr m =>
    let nm := normalizeMethod m
    if nm = "initialize" ∨ nm = "get_tools" then
      (okResponse req.id initResult, s)
    else if nm = "invoke_tool" then
      let p := req.params.jsOr (.vObj [])
      invokeBranch req.id s (p.getField "name") (p.getField "args")
    else
      (errResponse req.id (-32601) ("Unknown method: " ++ m), s)
  | mv => (errResponse req.id (-32000) (methodTypeErrMsg mv), s)

/-- The store right after `seedDatabase()` on an empty table: Alice
and Bob inserted, `SERIAL` counter at 3. -/
def seedStore : Store :=
  { users :=
      [⟨1, some "Alice", some "alice@example.com", some "admin", 0⟩,
       ⟨2, some "Bob", some "bob@example.com", some "user", 0⟩],
    nextId := 3,
    now := 100,
    failure := none }

/-- Convenience: an `invoke_tool` request with the given id, tool name
and arguments object. -/
def invokeReq (idv : JsonVal) (toolName : String) (args : JsonVal) :
    McpRequest :=
  { id := idv,
    method := .vStr "invoke_tool",
    params := .vObj [("name", .vStr toolName), ("args", args)] }

/-- A well-formed JSON-RPC response for request id `idv`: the envelope
echoes the id and carries exactly one of `result` / `error`. -/
def oneEnvelope (idv : JsonVal) (r : McpResponse) : Prop :=
  r.jsonrpc = "2.0" ∧ r.id = idv ∧
    ((r.result.isSome ∧ r.error = none) ∨ (r.result = none ∧ r.error.isSome))

/-- Every tool is found in the registry under its own key. -/
theorem lookupTool_key (t : ToolName) : lookupTool t.key = .found t := by
  cases t <;> rfl

/-- An `invoke_tool` request reduces to the `invoke_tool` block on the
destructured `name` and `args` fields. -/
theorem mcpDispatch_invokeReq (s : Store) (idv args : JsonVal)
    (k : String) :
    mcpDispatch s (invokeReq idv k args) = invokeBranch idv s (.vStr k) args :=
  rfl

/-- When `params.name` resolves in the registry, the `invoke_tool`
block runs the tool's handler on `args || {}` and maps its outcome. -/
theorem invokeBranch_known (idv : JsonVal) (s : Store) (k : String)
    (args : JsonVal) (t : ToolName) (hk : lookupTool k = .found t) :
    invokeBranch idv s (.vStr k) args
      = invokeOutcome idv s (runTool t (args.jsOr (.vObj [])) s) := by
  unfold invokeBranch
  rw [show jsToString (.vStr k) = k from rfl, hk]

/-- Helper: the outcome mapping always yields a well-formed envelope. -/
theorem invokeOutcome_oneEnvelope (idv : JsonVal) (s : Store)
    (out : Except String (JsonVal × Store)) :
    oneEnvelope idv (invokeOutcome idv s out).1 := by
  cases out with
  | ok rs => exact ⟨rfl, rfl, Or.inl ⟨rfl, rfl⟩⟩
  | error msg => exact ⟨rfl, rfl, Or.inr ⟨rfl, rfl⟩⟩

/-- Helper: the `invoke_tool` block always yields a well-formed
envelope. -/
theorem invokeBranch_oneEnvelope (idv : JsonVal) (s : Store)
    (nameV argsV : JsonVal) :
    oneEnvelope idv (invokeBranch idv s nameV argsV).1 := by
  unfold invokeBranch
  cases lookupTool (jsToString nameV) with
  | absent => exact ⟨rfl, rfl, Or.inr ⟨rfl, rfl⟩⟩
  | inherited => exact ⟨rfl, rfl, Or.inr ⟨rfl, rfl⟩⟩
  | found t => exact invokeOutcome_oneEnvelope idv s _

/-- C1: every request that reaches the `/mcp` dispatcher — whatever
its method, params, and whichever branch serves it (discovery, tool
invocation, unknown method, or the catch handler) — produces exactly
one response envelope carrying either a `result` or an `error` (never
both), whose `id` equals the id of the request. -/
theorem mcp_dispatch_one_envelope (s : Store) (req : McpRequest) :
    oneEnvelope req.id (mcpDispatch s req).1 := by
  obtain ⟨idv, mv, pv⟩ := req
  cases mv with
  | vStr m =>
    simp only [mcpDispatch]
    split
    · exact ⟨rfl, rfl, Or.inl ⟨rfl, rfl⟩⟩
    · split
      · exact invokeBranch_oneEnvelope idv s _ _
      · exact ⟨rfl, rfl, Or.inr ⟨rfl, rfl⟩⟩
  | vUndef => exact ⟨rfl, rfl, Or.inr ⟨rfl, rfl⟩⟩
  | vNull => exact ⟨rfl, rfl, Or.inr ⟨rfl, rfl⟩⟩
  | vBool b => exact ⟨rfl, rfl, Or.inr ⟨rfl, rfl⟩⟩
  | vNum n => exact ⟨rfl, rfl, Or.inr ⟨rfl, rfl⟩⟩
  | vArr xs => exact ⟨rfl, rfl, Or.inr ⟨rfl, rfl⟩⟩
  | vObj fs => exact ⟨rfl, rfl, Or.inr ⟨rfl, rfl⟩⟩

/-- C2 (counterexample): invoking `create_user` without a `role`
argument on the seeded store yields a success envelope (no error at
all, in particular not `-32602`), and the store IS invoked: the users
table grows by one row whose `role` column is NULL. -/
theorem create_user_missing_role_cex :
    ((mcpDispatch seedStore (invokeReq (.vNum 1) "create_user"
        (.vObj [("name", .vStr "Carol"), ("email", .vStr "carol@example.com")]))).1.error
      = none)
    ∧ ((mcpDispatch seedStore (invokeReq (.vNum 1) "create_user"
        (.vObj [("name", .vStr "Carol"), ("email", .vStr "carol@example.com")]))).2.users.length
      = seedStore.users.length + 1)
    ∧ ((mcpDispatch seedStore (invokeReq (.vNum 1) "create_user"
        (.vObj [("name", .vStr "Carol"), ("email", .vStr "carol@example.com")]))).2.users.getLast?.map User.role
      = some none) :=
  ⟨rfl, rfl, rfl⟩

/-- C2 (amended): the dispatcher performs no argument validation, so a
`create_user` invocation whose arguments lack `role` runs the handler
with `role` undefined: the insert executes with a NULL role, the row
is appended, and a success envelope is returned. -/
theorem create_user_missing_role_null (s : Store) (idv : JsonVal) (nm em : String)
    (hf : s.failure = none) :
    mcpDispatch s (invokeReq idv "create_user"
        (.vObj [("name", .vStr nm), ("email", .vStr em)]))
      = (okResponse idv (userToJson ⟨s.nextId, some nm, some em, none, s.now⟩),
         { s with users := s.users ++ [⟨s.nextId, some nm, some em, none, s.now⟩],
                  nextId := s.nextId + 1 }) := by
  obtain ⟨us, ni, nw, fl⟩ := s
  have hfl : fl = none := hf
  subst hfl
  rfl

/-- C2 (witness): the amended statement at the seeded store. -/
theorem create_user_missing_role_null_witness :
    mcpDispatch seedStore (invokeReq (.vNum 1) "create_user"
        (.vObj [("name", .vStr "Carol"), ("email", .vStr "carol@example.com")]))
      = (okResponse (.vNum 1) (userToJson ⟨3, some "Carol", some "carol@example.com", none, 100⟩),
         { seedStore with
            users := seedStore.users ++ [⟨3, some "Carol", some "carol@example.com", none, 100⟩],
            nextId := 4 }) :=
  create_user_missing_role_null seedStore (.vNum 1) "Carol" "carol@example.com" rfl

/-- C3 (counterexample): an `invoke_tool` request whose params lack
`name` is answered with code `-32601` (the unknown-tool error for the
stringified `undefined`), not `-32602`. -/
theorem invoke_missing_name_cex :
    ((mcpDispatch seedStore
        { id := .vNum 1, method := .vStr "invoke_tool", params := .vObj [] }).1.error
      = some ⟨-32601, "Unknown tool: undefined"⟩)
    ∧ ((mcpDispatch seedStore
        { id := .vNum 1, method := .vStr "invoke_tool", params := .vObj [] }).1.error.map ErrObj.code
      ≠ some (-32602)) :=
  ⟨rfl, by decide⟩

/-- C3 (amended): for every invocation request whose params object has
no `name` field, the destructured `name` is `undefined`, the registry
lookup fails, and the dispatcher answers `-32601` with message
`Unknown tool: undefined` — not `-32602`. -/
theorem invoke_missing_name_unknown_tool (s : Store) (idv : JsonVal)
    (fs : List (String × JsonVal)) (h : ∀ p ∈ fs, p.1 ≠ "name") :
    mcpDispatch s { id := idv, method := .vStr "invoke_tool", params := .vObj fs }
      = (errResponse idv (-32601) "Unknown tool: undefined", s) := by
  have hfind : fs.find? (fun p => p.1 == "name") = none := by
    rw [List.find?_eq_none]
    intro p hp
    simpa using h p hp
  have hget : (JsonVal.vObj fs).getField "name" = .vUndef := by
    simp [JsonVal.getField, hfind]
  have hred : mcpDispatch s { id := idv, method := .vStr "invoke_tool", params := .vObj fs }
      = invokeBranch idv s ((JsonVal.vObj fs).getField "name")
          ((JsonVal.vObj fs).getField "args") := rfl
  rw [hred, hget]
  rfl

/-- C3 (witness): the amended statement at empty params. -/
theorem invoke_missing_name_unknown_tool_witness :
    mcpDispatch seedStore
        { id := .vNum 1, method := .vStr "invoke_tool", params := .vObj [] }
      = (errResponse (.vNum 1) (-32601) "Unknown tool: undefined", seedStore) :=
  invoke_missing_name_unknown_tool seedStore (.vNum 1) [] (by decide)

/-- C4 (counterexample): `get_user` invoked with the numeric string
`"1"` is not rejected with a validation error: no error envelope is
produced, the handler runs, and the string is coerced into the store
key — the row with id 1 (Alice) is returned. -/
theorem get_user_string_id_cex :
    ((mcpDispatch seedStore (invokeReq (.vNum 1) "get_user"
        (.vObj [("id", .vStr "1")]))).1.error = none)
    ∧ ((mcpDispatch seedStore (invokeReq (.vNum 1) "get_user"
        (.vObj [("id", .vStr "1")]))).1.result
      = some (userToJson ⟨1, some "Alice", some "alice@example.com", some "admin", 0⟩)) :=
  ⟨rfl, rfl⟩

/-- C4 (amended): the dispatcher performs no argument validation for
`get_user`: a numeric-string id is passed straight to the query, where
the database casts it to the integer key, so the invocation behaves
exactly as if the corresponding number had been sent. -/
theorem get_user_string_id_coerced (s : Store) (idv : JsonVal) (str : String)
    (n : Int) (hp : pgParseInt str = some n) :
    mcpDispatch s (invokeReq idv "get_user" (.vObj [("id", .vStr str)]))
      = mcpDispatch s (invokeReq idv "get_user" (.vObj [("id", .vNum n)])) := by
  have hsel : s.selectById (.vStr str) = s.selectById (.vNum n) := by
    unfold Store.selectById
    cases hsf : s.failure with
    | some msg => rfl
    | none =>
      rw [show pgIntParam (.vStr str) = .ok (some n) by simp [pgIntParam, hp]]
      rfl
  have hrt : runTool .get_user ((JsonVal.vObj [("id", JsonVal.vStr str)]).jsOr (.vObj [])) s
      = runTool .get_user ((JsonVal.vObj [("id", JsonVal.vNum n)]).jsOr (.vObj [])) s := by
    show (match s.selectById (.vStr str) with
          | .error msg => Except.error msg
          | .ok rows => Except.ok (((rows.head?).map userToJson).getD .vNull, s))
        = (match s.selectById (.vNum n) with
          | .error msg => Except.error msg
          | .ok rows => Except.ok (((rows.head?).map userToJson).getD .vNull, s))
    rw [hsel]
  rw [mcpDispatch_invokeReq, mcpDispatch_invokeReq,
      invokeBranch_known idv s "get_user" _ .get_user rfl,
      invokeBranch_known idv s "get_user" _ .get_user rfl, hrt]

/-- C4 (witness): the amended statement at id string `"1"`. -/
theorem get_user_string_id_coerced_witness :
    mcpDispatch seedStore (invokeReq (.vNum 1) "get_user" (.vObj [("id", .vStr "1")]))
      = mcpDispatch seedStore (invokeReq (.vNum 1) "get_user" (.vObj [("id", .vNum 1)])) :=
  get_user_string_id_coerced seedStore (.vNum 1) "1" 1 rfl

/-- C5 (counterexample): `params.name = "toString"` is not a
registered tool, yet the dispatcher answers code `-32000`, not
`-32601`: `tools["toString"]` finds the truthy function inherited from
`Object.prototype`, the `!tool` guard is skipped, and calling the
undefined `tool.handler` throws into the catch. -/
theorem unknown_tool_proto_cex :
    ((mcpDispatch seedStore (invokeReq (.vNum 1) "toString" .vNull)).1.error.map ErrObj.code
      = some (-32000))
    ∧ ((mcpDispatch seedStore (invokeReq (.vNum 1) "toString" .vNull)).1.error.map ErrObj.code
      ≠ some (-32601)) :=
  ⟨rfl, by decide⟩

/-- C5 (amended): an invocation whose `params.name` is none of
`list_users`, `get_user`, `create_user` is answered, whatever the
`args` field holds, with an error envelope of code `-32601` whose
message contains the offending name — provided the name is not a
property inherited from `Object.prototype`; for an inherited name
(`toString`, `constructor`, `__proto__`, …) the property read is
truthy, `tool.handler` is undefined, the call throws, and the catch
answers code `-32000` instead. -/
theorem unknown_tool_error_code (s : Store) (idv argsv : JsonVal) (nm : String)
    (h1 : nm ≠ "list_users") (h2 : nm ≠ "get_user") (h3 : nm ≠ "create_user") :
    (protoProps.contains nm = false →
      mcpDispatch s (invokeReq idv nm argsv)
        = (errResponse idv (-32601) ("Unknown tool: " ++ nm), s)
      ∧ nm.data <:+ ("Unknown tool: " ++ nm).data)
    ∧ (protoProps.contains nm = true →
      mcpDispatch s (invokeReq idv nm argsv)
        = (errResponse idv (-32000) "tool.handler is not a function", s)) := by
  constructor
  · intro hp
    constructor
    · have hl : lookupTool nm = .absent := by
        have hp2 : nm ∉ protoProps := by simpa using hp
        simp [lookupTool, h1, h2, h3, hp2]
      rw [mcpDispatch_invokeReq]
      unfold invokeBranch
      rw [show jsToString (.vStr nm) = nm from rfl, hl]
    · rw [show ("Unknown tool: " ++ nm).data = ("Unknown tool: ").data ++ nm.data from rfl]
      exact List.suffix_append _ _
  · intro hp
    have hl : lookupTool nm = .inherited := by
      have hp2 : nm ∈ protoProps := by simpa using hp
      simp [lookupTool, h1, h2, h3, hp2]
    rw [mcpDispatch_invokeReq]
    unfold invokeBranch
    rw [show jsToString (.vStr nm) = nm from rfl, hl]

/-- C5 (witness): the unregistered name `frobnicate` answers `-32601`
with the name in the message; the prototype-inherited name `toString`
answers `-32000`. -/
theorem unknown_tool_error_code_witness :
    (mcpDispatch seedStore (invokeReq (.vNum 1) "frobnicate" .vNull)
      = (errResponse (.vNum 1) (-32601) "Unknown tool: frobnicate", seedStore))
    ∧ ("frobnicate".data <:+ ("Unknown tool: " ++ "frobnicate").data)
    ∧ (mcpDispatch seedStore (invokeReq (.vNum 2) "toString" .vNull)
      = (errResponse (.vNum 2) (-32000) "tool.handler is not a function", seedStore)) := by
  refine ⟨?_, ?_, ?_⟩
  · exact ((unknown_tool_error_code seedStore (.vNum 1) .vNull "frobnicate"
      (by decide) (by decide) (by decide)).1 (by decide)).1
  · exact ((unknown_tool_error_code seedStore (.vNum 1) .vNull "frobnicate"
      (by decide) (by decide) (by decide)).1 (by decide)).2
  · exact (unknown_tool_error_code seedStore (.vNum 2) .vNull "toString"
      (by decide) (by decide) (by decide)).2 (by decide)

/-- C6: every failure raised by a registered tool handler — in this
program a handler can only fail through its store query — is caught at
the dispatcher boundary and answered with a complete error envelope of
code `-32000` carrying the failure message; the store state is left as
it was and no partial envelope is emitted. -/
theorem handler_failure_internal_error (s : Store) (idv args : JsonVal)
    (t : ToolName) (msg : String)
    (hrun : runTool t (args.jsOr (.vObj [])) s = .error msg) :
    mcpDispatch s (invokeReq idv t.key args)
      = (errResponse idv (-32000) msg, s) := by
  rw [mcpDispatch_invokeReq,
      invokeBranch_known idv s t.key args t (lookupTool_key t), hrun]
  rfl

/-- C6 (witness): a failing store surfaces through `list_users` as a
`-32000` envelope. -/
theorem handler_failure_internal_error_witness :
    mcpDispatch ⟨seedStore.users, 3, 100, some "connection refused"⟩
        (invokeReq (.vNum 4) "list_users" .vUndef)
      = (errResponse (.vNum 4) (-32000) "connection refused",
         ⟨seedStore.users, 3, 100, some "connection refused"⟩) :=
  handler_failure_internal_error ⟨seedStore.users, 3, 100, some "connection refused"⟩
    (.vNum 4) .vUndef .list_users "connection refused" rfl

/-- C7: `get_user` with a number id matching no row yields a success
envelope whose result is the not-found marker (JSON `null`), never an
error envelope. -/
theorem get_user_not_found_marker (s : Store) (idv : JsonVal) (n : Int)
    (hf : s.failure = none) (hmiss : ∀ u ∈ s.users, (u.id : Int) ≠ n) :
    mcpDispatch s (invokeReq idv "get_user" (.vObj [("id", .vNum n)]))
      = (okResponse idv .vNull, s) := by
  obtain ⟨us, ni, nw, fl⟩ := s
  have hfl : fl = none := hf
  subst hfl
  have hmiss2 : ∀ u ∈ us, (u.id : Int) ≠ n := hmiss
  have hfil : us.filter (fun u => (u.id : Int) == n) = [] := by
    rw [List.filter_eq_nil_iff]
    intro u hu
    simpa using hmiss2 u hu
  have hred : mcpDispatch ⟨us, ni, nw, none⟩
      (invokeReq idv "get_user" (.vObj [("id", .vNum n)]))
      = (okResponse idv
          ((((us.filter (fun u => (u.id : Int) == n)).head?).map userToJson).getD .vNull),
         ⟨us, ni, nw, none⟩) := rfl
  rw [hred, hfil]
  rfl

/-- C7 (witness): id 999 against the seeded store. -/
theorem get_user_not_found_marker_witness :
    mcpDispatch seedStore (invokeReq (.vNum 1) "get_user" (.vObj [("id", .vNum 999)]))
      = (okResponse (.vNum 1) .vNull, seedStore) :=
  get_user_not_found_marker seedStore (.vNum 1) 999 rfl (by decide)

/-- C8: a `create_user` call with string `name`, `email`, `role` on a
well-formed store (every existing id below the `SERIAL` counter, as
the database guarantees) returns the created entity, whose
server-assigned id equals the counter and is strictly greater than
every previously assigned id and is present (non-null) in the returned
row; a subsequent `get_user` with that id returns the identical entity
and leaves the store unchanged. -/
theorem create_then_get_roundtrip (s : Store) (idv idv2 : JsonVal)
    (nm em rl : String) (hf : s.failure = none)
    (hids : ∀ u ∈ s.users, u.id < s.nextId) :
    mcpDispatch s (invokeReq idv "create_user"
        (.vObj [("name", .vStr nm), ("email", .vStr em), ("role", .vStr rl)]))
      = (okResponse idv (userToJson ⟨s.nextId, some nm, some em, some rl, s.now⟩),
         { s with users := s.users ++ [⟨s.nextId, some nm, some em, some rl, s.now⟩],
                  nextId := s.nextId + 1 })
    ∧ (∀ v ∈ s.users, v.id < (⟨s.nextId, some nm, some em, some rl, s.now⟩ : User).id)
    ∧ (userToJson ⟨s.nextId, some nm, some em, some rl, s.now⟩).getField "id"
        = .vNum s.nextId
    ∧ mcpDispatch
        { s with users := s.users ++ [⟨s.nextId, some nm, some em, some rl, s.now⟩],
                 nextId := s.nextId + 1 }
        (invokeReq idv2 "get_user" (.vObj [("id", .vNum s.nextId)]))
      = (okResponse idv2 (userToJson ⟨s.nextId, some nm, some em, some rl, s.now⟩),
         { s with users := s.users ++ [⟨s.nextId, some nm, some em, some rl, s.now⟩],
                  nextId := s.nextId + 1 }) := by
  obtain ⟨us, ni, nw, fl⟩ := s
  have hfl : fl = none := hf
  subst hfl
  have hids2 : ∀ u ∈ us, u.id < ni := hids
  refine ⟨rfl, hids2, rfl, ?_⟩
  have hfil : (us ++ [(⟨ni, some nm, some em, some rl, nw⟩ : User)]).filter
      (fun v => (v.id : Int) == ((ni : Nat) : Int))
      = [(⟨ni, some nm, some em, some rl, nw⟩ : User)] := by
    rw [List.filter_append]
    have h1 : us.filter (fun v => (v.id : Int) == ((ni : Nat) : Int)) = [] := by
      rw [List.filter_eq_nil_iff]
      intro v hv
      have hlt := hids2 v hv
      simp only [beq_iff_eq, Nat.cast_inj]
      omega
    rw [h1]
    simp
  have hred : mcpDispatch ⟨us ++ [(⟨ni, some nm, some em, some rl, nw⟩ : User)], ni + 1, nw, none⟩
      (invokeReq idv2 "get_user" (.vObj [("id", .vNum ni)]))
      = (okResponse idv2
          (((((us ++ [(⟨ni, some nm, some em, some rl, nw⟩ : User)]).filter
              (fun v => (v.id : Int) == ((ni : Nat) : Int))).head?).map userToJson).getD .vNull),
         ⟨us ++ [(⟨ni, some nm, some em, some rl, nw⟩ : User)], ni + 1, nw, none⟩) := rfl
  rw [hred, hfil]
  rfl

/-- C8 (witness): creating Carol on the seeded store and reading her
back. -/
theorem create_then_get_roundtrip_witness :
    mcpDispatch seedStore (invokeReq (.vNum 1) "create_user"
        (.vObj [("name", .vStr "Carol"), ("email", .vStr "carol@example.com"),
                ("role", .vStr "user")]))
      = (okResponse (.vNum 1)
          (userToJson ⟨3, some "Carol", some "carol@example.com", some "user", 100⟩),
         { seedStore with
            users := seedStore.users
              ++ [⟨3, some "Carol", some "carol@example.com", some "user", 100⟩],
            nextId := 4 })
    ∧ (∀ v ∈ seedStore.users,
        v.id < (⟨3, some "Carol", some "carol@example.com", some "user", 100⟩ : User).id)
    ∧ (userToJson ⟨3, some "Carol", some "carol@example.com", some "user", 100⟩).getField "id"
        = .vNum 3
    ∧ mcpDispatch
        { seedStore with
            users := seedStore.users
              ++ [⟨3, some "Carol", some "carol@example.com", some "user", 100⟩],
            nextId := 4 }
        (invokeReq (.vNum 2) "get_user" (.vObj [("id", .vNum 3)]))
      = (okResponse (.vNum 2)
          (userToJson ⟨3, some "Carol", some "carol@example.com", some "user", 100⟩),
         { seedStore with
            users := seedStore.users
              ++ [⟨3, some "Carol", some "carol@example.com", some "user", 100⟩],
            nextId := 4 }) :=
  create_then_get_roundtrip seedStore (.vNum 1) (.vNum 2)
    "Carol" "carol@example.com" "user" rfl (by decide)

/-- C9: a `create_user` call whose three arguments are strings creates
and returns the record whatever the shape of the email string — no
email-format check blocks the insert (the statement quantifies over
every string `em`, with no well-formedness hypothesis). -/
theorem create_user_email_not_validated (s : Store) (idv : JsonVal)
    (nm em rl : String) (hf : s.failure = none) :
    mcpDispatch s (invokeReq idv "create_user"
        (.vObj [("name", .vStr nm), ("email", .vStr em), ("role", .vStr rl)]))
      = (okResponse idv (userToJson ⟨s.nextId, some nm, some em, some rl, s.now⟩),
         { s with users := s.users ++ [⟨s.nextId, some nm, some em, some rl, s.now⟩],
                  nextId := s.nextId + 1 }) := by
  obtain ⟨us, ni, nw, fl⟩ := s
  have hfl : fl = none := hf
  subst hfl
  rfl

/-- C9 (witness): a syntactically invalid email is accepted and
stored. -/
theorem create_user_email_not_validated_witness :
    mcpDispatch seedStore (invokeReq (.vNum 1) "create_user"
        (.vObj [("name", .vStr "Dan"), ("email", .vStr "definitely not an email"),
                ("role", .vStr "user")]))
      = (okResponse (.vNum 1)
          (userToJson ⟨3, some "Dan", some "definitely not an email", some "user", 100⟩),
         { seedStore with
            users := seedStore.users
              ++ [⟨3, some "Dan", some "definitely not an email", some "user", 100⟩],
            nextId := 4 }) :=
  create_user_email_not_validated seedStore (.vNum 1)
    "Dan" "definitely not an email" "user" rfl

/-- C10: the `invoke_tool` branch is total in `params` and `args`:
absent or null `params` is defaulted to the empty object, so the
request is answered with the `-32601` unknown-tool envelope (for the
stringified `undefined` name) instead of throwing; and a tool invoked
with absent `args` behaves exactly as if invoked with the empty
object. -/
theorem invoke_tool_defaults (s : Store) (idv : JsonVal) :
    (mcpDispatch s { id := idv, method := .vStr "invoke_tool", params := .vUndef }
       = (errResponse idv (-32601) "Unknown tool: undefined", s))
    ∧ (mcpDispatch s { id := idv, method := .vStr "invoke_tool", params := .vNull }
       = (errResponse idv (-32601) "Unknown tool: undefined", s))
    ∧ ∀ nm : String,
        mcpDispatch s { id := idv, method := .vStr "invoke_tool",
                        params := .vObj [("name", .vStr nm)] }
          = mcpDispatch s (invokeReq idv nm (.vObj [])) := by
  refine ⟨rfl, rfl, fun nm => ?_⟩
  show invokeBranch idv s (.vStr nm) .vUndef = invokeBranch idv s (.vStr nm) (.vObj [])
  unfold invokeBranch
  cases lookupTool (jsToString (.vStr nm)) with
  | absent => rfl
  | inherited => rfl
  | found t => rfl
